import Mathlib

/-!
Shallow embedding of the poster-wall frontend API client and the movie detail
page polling logic, together with proofs about their behaviour.

The embedded code consists of:
* the API types (`ResourceStatus`, `TaskStatus`, `ApiResult`, `TaskRecord`, ...);
* the HTTP client `requestJson` with its retry loop, modelled as a pure
  function from a schedule of fetch outcomes to a trace (number of attempts,
  waits performed, final result);
* the provisioning wrappers `saveVirtualLink`, `triggerJitProvision`,
  `getTaskStatus` with the in-module mock task store `mockTasks` modelled as an
  association list, and the nondeterministic inputs (clock, random suffix,
  backend response) passed explicitly;
* the search flattening `searchQuarkLinks`;
* the detail page's `mapTaskStatus` and the poll step of its `pollTasks` effect.
-/

namespace TestWall

/-- Resource lifecycle states, from the `ResourceStatus` union in the API types. -/
inductive ResourceStatus where
  | VIRTUAL
  | MATERIALIZED
  | PROVISIONING
  | FAILED
  deriving DecidableEq, Repr

/-- Task statuses travel as strings over the wire (the TypeScript union
`"pending" | "processing" | "completed" | "failed"` is erased at runtime, and
`requestJson` casts unvalidated JSON), so the embedding uses `String`. -/
abbrev TaskStatus := String

/-- The `ApiErrorShape` interface: `message`, optional `code`, `status`, `requestId`. -/
structure ApiErrorShape where
  message : String
  code : Option String
  status : Option Nat
  requestId : Option String
  deriving DecidableEq, Repr

/-- The `ApiMeta` interface: `source` is `"mock"` or `"backend"`. -/
structure ApiMeta where
  source : String
  warning : Option String
  deriving DecidableEq, Repr

/-- The `ApiResult` envelope returned by the provisioning wrappers. -/
structure ApiResult (T : Type) where
  ok : Bool
  data : Option T
  error : Option ApiErrorShape
  meta : Option ApiMeta
  deriving DecidableEq, Repr

/-- The `TaskRecord` interface. -/
structure TaskRecord where
  taskId : String
  status : TaskStatus
  tmdbId : String
  linkId : Option String
  updatedAt : String
  progress : Option Nat
  resultWebdavUrl : Option String
  errorMessage : Option String
  deriving DecidableEq, Repr

/-- The `SaveVirtualLinkParams` interface. -/
structure SaveVirtualLinkParams where
  tmdbId : String
  linkId : String
  title : String
  shareUrl : String
  deriving DecidableEq, Repr

/-- The `TriggerJitProvisionParams` interface. -/
structure TriggerJitProvisionParams where
  tmdbId : String
  linkId : String
  shareUrl : Option String
  deriving DecidableEq, Repr

/-- The `QuarkSearchParams` interface: both fields optional. -/
structure QuarkSearchParams where
  tmdbId : Option String
  query : Option String
  deriving DecidableEq, Repr

/-- The `RetryOptions` interface. -/
structure RetryOptions where
  retries : Nat
  backoffMs : Nat
  deriving DecidableEq, Repr

/-- JavaScript truthy-or on an optional string (`a || b`): both `undefined`
and the empty string are falsy and fall through to `b`. -/
def jsOrS (a : Option String) (b : String) : String :=
  match a with
  | none => b
  | some s => if s = "" then b else s

/-- JavaScript nullish coalescing on an optional string (`a ?? b`): only
`undefined`/`null` falls through; the empty string does not. -/
def nullish (a : Option String) (b : String) : String :=
  match a with
  | none => b
  | some s => s

/-- The detail page's `mapTaskStatus` switch: `"pending"`/`"processing"` map to
`PROVISIONING`, `"completed"` to `MATERIALIZED`, `"failed"` to `FAILED`, and the
`default` branch maps every other string to `PROVISIONING`. -/
def mapTaskStatus (status : String) : ResourceStatus :=
  if status = "pending" ∨ status = "processing" then ResourceStatus.PROVISIONING
  else if status = "completed" then ResourceStatus.MATERIALIZED
  else if status = "failed" then ResourceStatus.FAILED
  else ResourceStatus.PROVISIONING

/-- C2: `mapTaskStatus` is total over all input strings and maps `"pending"` and
`"processing"` to `PROVISIONING`, `"completed"` to `MATERIALIZED`, `"failed"` to
`FAILED`, and every other string to `PROVISIONING`; hence the status displayed
for a polled task is always one of the four `ResourceStatus` states (in fact it
is never `VIRTUAL`). -/
theorem mapTaskStatus_total (s : String) :
    ((s = "pending" ∨ s = "processing") → mapTaskStatus s = ResourceStatus.PROVISIONING) ∧
    (s = "completed" → mapTaskStatus s = ResourceStatus.MATERIALIZED) ∧
    (s = "failed" → mapTaskStatus s = ResourceStatus.FAILED) ∧
    (s ≠ "pending" → s ≠ "processing" → s ≠ "completed" → s ≠ "failed" →
      mapTaskStatus s = ResourceStatus.PROVISIONING) ∧
    (mapTaskStatus s = ResourceStatus.PROVISIONING ∨
      mapTaskStatus s = ResourceStatus.MATERIALIZED ∨
      mapTaskStatus s = ResourceStatus.FAILED) := by
  unfold mapTaskStatus
  refine ⟨?_, ?_, ?_, ?_, ?_⟩
  · rintro (h | h) <;> simp [h]
  · intro h; subst h; simp
  · intro h; subst h; simp
  · intro h1 h2 h3 h4; simp [h1, h2, h3, h4]
  · by_cases h1 : s = "pending" ∨ s = "processing"
    · simp [h1]
    · by_cases h2 : s = "completed"
      · simp [h1, h2]
      · by_cases h3 : s = "failed" <;> simp [h1, h2, h3]

/-- Witness for C2 at concrete inputs. -/
theorem mapTaskStatus_total_witness :
    mapTaskStatus "pending" = ResourceStatus.PROVISIONING ∧
    mapTaskStatus "completed" = ResourceStatus.MATERIALIZED ∧
    mapTaskStatus "failed" = ResourceStatus.FAILED ∧
    mapTaskStatus "garbage" = ResourceStatus.PROVISIONING :=
  ⟨(mapTaskStatus_total "pending").1 (Or.inl rfl),
   (mapTaskStatus_total "completed").2.1 rfl,
   (mapTaskStatus_total "failed").2.2.1 rfl,
   (mapTaskStatus_total "garbage").2.2.2.1 (by decide) (by decide) (by decide) (by decide)⟩

/-- The default retry policy of the client: `{ retries: 1, backoffMs: 500 }`. -/
def DEFAULT_RETRY : RetryOptions := ⟨1, 500⟩

/-- Outcome of a single `fetchWithTimeout` attempt plus JSON parsing, as seen
by the body of `requestJson`'s loop: either the response was OK and parsed to a
body, or it had a non-OK HTTP status (with an optional `x-request-id` header),
or the fetch itself threw (network error, abort on timeout, ...). -/
inductive FetchOutcome (T : Type) where
  | httpOk (body : T)
  | httpError (status : Nat) (requestId : Option String)
  | netError (message : String)
  deriving DecidableEq, Repr

/-- A JavaScript exception as thrown inside `requestJson`: either an `ApiError`
(with `message`, `status`, `requestId`) or any other error. -/
inductive JsError where
  | apiError (message : String) (status : Nat) (requestId : Option String)
  | other (message : String)
  deriving DecidableEq, Repr

/-- One iteration of `requestJson`'s `try` block: a non-OK response is turned
into a thrown `ApiError` whose message is
`"Request failed with status " ++ status`; a fetch exception propagates; an OK
response returns its parsed body. -/
def attemptStep {T : Type} (outcome : FetchOutcome T) : Except JsError T :=
  match outcome with
  | FetchOutcome.httpOk body => Except.ok body
  | FetchOutcome.httpError status requestId =>
      Except.error (JsError.apiError
        ("Request failed with status " ++ toString status) status requestId)
  | FetchOutcome.netError message => Except.error (JsError.other message)

/-- Observable trace of one `requestJson` call: how many fetch attempts were
made, which waits (`sleep` durations, in ms) separated them, and the final
result (the returned value or the propagated exception). -/
structure ReqTrace (T : Type) where
  attempts : Nat
  waits : List Nat
  result : Except JsError T
  deriving Repr

/-- The loop of `requestJson` from a given attempt index with the given fuel
(number of remaining loop iterations; the source loop runs for
`attempt = 0 .. retry.retries`).  On a caught error, if `attempt >= retry.retries`
the error is rethrown; otherwise the loop sleeps `retry.backoffMs * (attempt + 1)`
milliseconds and retries.  Exhausted fuel corresponds to falling off the loop,
which throws `ApiError("Request failed", 500)` (unreachable in the source). -/
def requestJsonFrom {T : Type} (retry : RetryOptions) (outcome : Nat → FetchOutcome T) :
    Nat → Nat → ReqTrace T
  | _, 0 => ⟨0, [], Except.error (JsError.apiError "Request failed" 500 none)⟩
  | attempt, fuel + 1 =>
    match attemptStep (outcome attempt) with
    | Except.ok v => ⟨1, [], Except.ok v⟩
    | Except.error e =>
      if retry.retries ≤ attempt then ⟨1, [], Except.error e⟩
      else
        let rest := requestJsonFrom retry outcome (attempt + 1) fuel
        ⟨rest.attempts + 1, retry.backoffMs * (attempt + 1) :: rest.waits, rest.result⟩

/-- `requestJson` with an explicit retry policy, over a schedule assigning each
attempt index its fetch outcome. -/
def requestJson {T : Type} (retry : RetryOptions) (outcome : Nat → FetchOutcome T) :
    ReqTrace T :=
  requestJsonFrom retry outcome 0 (retry.retries + 1)

/-- The number of attempts made is at least one (when fuel is available). -/
theorem requestJsonFrom_attempts_pos {T : Type} (retry : RetryOptions)
    (outcome : Nat → FetchOutcome T) (attempt fuel : Nat) (hfuel : 1 ≤ fuel) :
    1 ≤ (requestJsonFrom retry outcome attempt fuel).attempts := by
  cases fuel with
  | zero => omega
  | succ f =>
    unfold requestJsonFrom
    cases attemptStep (outcome attempt) with
    | ok v => simp
    | error e =>
      by_cases h : retry.retries ≤ attempt <;> simp [h]

/-- The number of attempts made never exceeds the fuel. -/
theorem requestJsonFrom_attempts_le {T : Type} (retry : RetryOptions)
    (outcome : Nat → FetchOutcome T) :
    ∀ fuel attempt, (requestJsonFrom retry outcome attempt fuel).attempts ≤ fuel := by
  intro fuel
  induction fuel with
  | zero => intro attempt; simp [requestJsonFrom]
  | succ f ih =>
    intro attempt
    unfold requestJsonFrom
    cases attemptStep (outcome attempt) with
    | ok v => simp
    | error e =>
      by_cases h : retry.retries ≤ attempt
      · simp [h]
      · simpa [h] using ih (attempt + 1)

/-- When every attempt fails, the loop starting at `attempt` with matching fuel
runs the remaining attempts, waiting `backoffMs * (i + 1)` after each
non-final attempt `i`, and ends with the error of the final attempt. -/
theorem requestJsonFrom_all_fail {T : Type} (retry : RetryOptions)
    (outcome : Nat → FetchOutcome T)
    (hfail : ∀ i, ∃ e, attemptStep (outcome i) = Except.error e) :
    ∀ fuel attempt, 1 ≤ fuel → attempt + fuel = retry.retries + 1 →
      requestJsonFrom retry outcome attempt fuel =
        ⟨fuel, (List.range' attempt (fuel - 1)).map (fun i => retry.backoffMs * (i + 1)),
          attemptStep (outcome retry.retries)⟩ := by
  intro fuel
  induction fuel with
  | zero => intro attempt h1 _; omega
  | succ f ih =>
    intro attempt _ heq
    obtain ⟨e, he⟩ := hfail attempt
    cases f with
    | zero =>
      have hatt : attempt = retry.retries := by omega
      subst hatt
      unfold requestJsonFrom
      rw [he]
      simp [he]
    | succ g =>
      have hlt : ¬ retry.retries ≤ attempt := by omega
      unfold requestJsonFrom
      rw [he]
      simp only [hlt, if_false]
      rw [ih (attempt + 1) (by omega) (by omega)]
      have hrange : List.range' attempt (g + 1) =
          attempt :: List.range' (attempt + 1) g := List.range'_succ attempt g 1
      simp [hrange]

/-- C9: when every attempt of a request fails, `requestJson` performs exactly
`retry.retries + 1` fetch attempts (2 under the default policy), separated by
waits of `backoffMs * (attempt + 1)` milliseconds for each non-final attempt,
and propagates the error thrown by the final attempt; it never returns a
fabricated success and never loops further. -/
theorem requestJson_bounded_last_error {T : Type} (retry : RetryOptions)
    (outcome : Nat → FetchOutcome T)
    (hfail : ∀ i, ∃ e, attemptStep (outcome i) = Except.error e) :
    (requestJson retry outcome).attempts = retry.retries + 1 ∧
    (requestJson retry outcome).waits =
      (List.range retry.retries).map (fun i => retry.backoffMs * (i + 1)) ∧
    (requestJson retry outcome).result = attemptStep (outcome retry.retries) ∧
    ∃ e, (requestJson retry outcome).result = Except.error e := by
  have h := requestJsonFrom_all_fail retry outcome hfail (retry.retries + 1) 0
    (by omega) (by omega)
  unfold requestJson
  rw [h]
  refine ⟨rfl, ?_, rfl, ?_⟩
  · simp [List.range_eq_range']
  · exact hfail retry.retries

/-- Witness for C9: with `retries = 2`, `backoffMs = 100` and every attempt a
network error, there are 3 attempts, waits `[100, 200]`, and the final error
is propagated. -/
theorem requestJson_bounded_last_error_witness :
    (requestJson (T := Unit) ⟨2, 100⟩ (fun _ => FetchOutcome.netError "boom")).attempts = 3 ∧
    (requestJson (T := Unit) ⟨2, 100⟩ (fun _ => FetchOutcome.netError "boom")).waits = [100, 200] ∧
    (requestJson (T := Unit) ⟨2, 100⟩ (fun _ => FetchOutcome.netError "boom")).result =
      Except.error (JsError.other "boom") := by
  obtain ⟨h1, h2, h3, -⟩ := requestJson_bounded_last_error (T := Unit) ⟨2, 100⟩
    (fun _ => FetchOutcome.netError "boom") (fun _ => ⟨JsError.other "boom", rfl⟩)
  refine ⟨h1, ?_, h3⟩
  rw [h2]; rfl

/-- C4 counterexample: under the default policy, a request that fails every
time with HTTP 401 (an authentication error — non-retryable per the spec) is
nevertheless retried: `requestJson` makes 2 attempts, and the single wait is
the linear `backoffMs * 1 = 500` ms, not a capped exponential backoff with
base 1s; the claim that non-retryable failures such as auth errors are not
retried is therefore false of the code. -/
theorem requestJson_retries_auth_error :
    (requestJson (T := Unit) DEFAULT_RETRY (fun _ => FetchOutcome.httpError 401 none)).attempts = 2 ∧
    (requestJson (T := Unit) DEFAULT_RETRY (fun _ => FetchOutcome.httpError 401 none)).waits = [500] ∧
    (requestJson (T := Unit) DEFAULT_RETRY (fun _ => FetchOutcome.httpError 401 none)).result =
      Except.error (JsError.apiError "Request failed with status 401" 401 none) :=
  ⟨rfl, rfl, rfl⟩

/-- C4 (amended): `requestJson` classifies no errors — every thrown error,
including an `ApiError` for any non-OK HTTP status (auth errors and upstream
rejections included), is retried while attempts remain; the waits are linear
(`backoffMs * (attempt + 1)`, so 500 ms first under the default policy), not
capped exponential with base 1s; and the total number of fetch attempts is
capped at `retry.retries + 1`. -/
theorem requestJson_retries_every_error {T : Type} (retry : RetryOptions)
    (outcome : Nat → FetchOutcome T) (e : JsError)
    (h0 : attemptStep (outcome 0) = Except.error e) (hret : 1 ≤ retry.retries) :
    2 ≤ (requestJson retry outcome).attempts ∧
    (requestJson retry outcome).waits.head? = some (retry.backoffMs * 1) ∧
    (requestJson retry outcome).attempts ≤ retry.retries + 1 := by
  have hle : ¬ retry.retries ≤ 0 := by omega
  have key : requestJson retry outcome =
      ⟨(requestJsonFrom retry outcome 1 retry.retries).attempts + 1,
        retry.backoffMs * (0 + 1) :: (requestJsonFrom retry outcome 1 retry.retries).waits,
        (requestJsonFrom retry outcome 1 retry.retries).result⟩ := by
    unfold requestJson
    conv_lhs => rw [requestJsonFrom]
    rw [h0]
    simp [hle]
  rw [key]
  refine ⟨?_, rfl, ?_⟩
  · have := requestJsonFrom_attempts_pos retry outcome 1 retry.retries hret
    simpa using this
  · have := requestJsonFrom_attempts_le retry outcome retry.retries 1
    simpa using this

/-- Witness for the amended C4: a first-attempt HTTP 503 under the default
policy is retried after a 500 ms wait, within the 2-attempt cap. -/
theorem requestJson_retries_every_error_witness :
    2 ≤ (requestJson (T := Unit) DEFAULT_RETRY (fun _ => FetchOutcome.httpError 503 none)).attempts ∧
    (requestJson (T := Unit) DEFAULT_RETRY (fun _ => FetchOutcome.httpError 503 none)).waits.head? =
      some (DEFAULT_RETRY.backoffMs * 1) ∧
    (requestJson (T := Unit) DEFAULT_RETRY (fun _ => FetchOutcome.httpError 503 none)).attempts ≤
      DEFAULT_RETRY.retries + 1 :=
  requestJson_retries_every_error DEFAULT_RETRY (fun _ => FetchOutcome.httpError 503 none)
    (JsError.apiError "Request failed with status 503" 503 none) rfl (by decide)

/-- The `ok` result helper: `{ ok: true, data, meta }`. -/
def ok {T : Type} (data : T) (meta : Option ApiMeta) : ApiResult T :=
  ⟨true, some data, none, meta⟩

/-- The `fail` result helper: `{ ok: false, error: { message, status, code, requestId } }`. -/
def fail {T : Type} (message : String) (status : Option Nat) (code : Option String)
    (requestId : Option String) : ApiResult T :=
  ⟨false, none, some ⟨message, code, status, requestId⟩, none⟩

/-- `buildMockWarning`. -/
def buildMockWarning (useMock : Bool) (action : String) : String :=
  if useMock then "API_BASE not configured; using mock for " ++ action ++ "."
  else "Mock in use for " ++ action ++ "."

/-- `Map.set` on the association-list model of a JavaScript `Map`: replaces the
value of an existing key in place, otherwise appends (insertion order kept). -/
def mapSet {α : Type} (m : List (String × α)) (key : String) (value : α) :
    List (String × α) :=
  if m.any (fun p => p.1 = key) then
    m.map (fun p => if p.1 = key then (key, value) else p)
  else m ++ [(key, value)]

/-- `Map.get` / keyed-object lookup on the association-list model. -/
def mapGet {α : Type} (m : List (String × α)) (key : String) : Option α :=
  (m.find? (fun p => p.1 = key)).map (fun p => p.2)

/-- `delete obj[key]` on the association-list model of a keyed object. -/
def deleteKey {α : Type} (m : List (String × α)) (key : String) : List (String × α) :=
  m.filter (fun p => p.1 ≠ key)

/-- The mock task id template literal
`` task_${Date.now()}_${Math.random().toString(36).slice(2, 7)} ``: the clock
value and the random suffix are inputs from the environment. -/
def genTaskId (nowMs : Nat) (rand : String) : String :=
  "task_" ++ toString nowMs ++ "_" ++ rand

/-- The payload of a successful `saveVirtualLink`: `{ status, savedAt }`. -/
structure SaveData where
  status : ResourceStatus
  savedAt : String
  deriving DecidableEq, Repr

/-- `saveVirtualLink`.  In mock mode it returns `ok` with status `VIRTUAL` and
the current time; otherwise it POSTs via `requestJson` (whose result is the
`req` argument) and maps a thrown `ApiError` to `fail(message, status, undefined,
requestId)` and any other exception to a generic failure. -/
def saveVirtualLink (useMock : Bool) (nowIso : String)
    (req : Except JsError SaveData) (params : SaveVirtualLinkParams) : ApiResult SaveData :=
  if useMock then
    ok ⟨ResourceStatus.VIRTUAL, nowIso⟩
      (some ⟨"mock", some (buildMockWarning useMock "saveVirtualLink")⟩)
  else
    match req with
    | Except.ok data => ok data (some ⟨"backend", none⟩)
    | Except.error (JsError.apiError m s rid) => fail m (some s) none rid
    | Except.error (JsError.other _) => fail "Failed to save virtual link" none none none

/-- `triggerJitProvision`.  In mock mode it generates a fresh task id from the
clock and a random suffix, stores a `"processing"` record in `mockTasks`, and
returns it; in backend mode it POSTs via `requestJson` (result in `req`),
rejects a response with a missing/empty `taskId` by throwing
`ApiError("Missing taskId in response", 500)` (caught by the same handler), and
maps exceptions to `fail`.  Returns the result and the updated `mockTasks`. -/
def triggerJitProvision (useMock : Bool) (nowMs : Nat) (rand : String) (nowIso : String)
    (req : Except JsError TaskRecord) (params : TriggerJitProvisionParams)
    (mockTasks : List (String × TaskRecord)) :
    ApiResult TaskRecord × List (String × TaskRecord) :=
  if useMock then
    let taskId := genTaskId nowMs rand
    let record : TaskRecord :=
      ⟨taskId, "processing", params.tmdbId, some params.linkId, nowIso, none, none, none⟩
    (ok record (some ⟨"mock", some (buildMockWarning useMock "triggerJitProvision")⟩),
      mapSet mockTasks taskId record)
  else
    (match req with
      | Except.ok data =>
        if data.taskId = "" then fail "Missing taskId in response" (some 500) none none
        else ok data (some ⟨"backend", none⟩)
      | Except.error (JsError.apiError m s rid) => fail m (some s) none rid
      | Except.error (JsError.other _) =>
        fail "Failed to trigger JIT provisioning" none none none,
      mockTasks)

/-- `getTaskStatus`.  In mock mode it looks the task up in `mockTasks` and
returns a 404 `TASK_NOT_FOUND` failure when absent; in backend mode it GETs via
`requestJson` (result in `req`) and maps exceptions to `fail`. -/
def getTaskStatus (useMock : Bool) (req : Except JsError TaskRecord)
    (mockTasks : List (String × TaskRecord)) (taskId : String) : ApiResult TaskRecord :=
  if useMock then
    match mapGet mockTasks taskId with
    | none => fail "Task not found" (some 404) (some "TASK_NOT_FOUND") none
    | some record => ok record (some ⟨"mock", none⟩)
  else
    match req with
    | Except.ok data => ok data (some ⟨"backend", none⟩)
    | Except.error (JsError.apiError m s rid) => fail m (some s) none rid
    | Except.error (JsError.other _) => fail "Failed to fetch task status" none none none

/-- A non-empty string stays non-empty under appending on the right. -/
theorem append_ne_empty_left (s t : String) (hs : s ≠ "") : s ++ t ≠ "" := by
  intro h
  have h2 := congrArg String.length h
  rw [String.length_append] at h2
  simp at h2
  obtain ⟨h1, -⟩ := h2
  apply hs
  cases s with
  | mk l =>
    cases l with
    | nil => rfl
    | cons c cs => simp [String.length] at h1

/-- Well-formedness of an exception thrown inside the client: an `ApiError`
always carries a non-empty message. -/
def errMsgOk : JsError → Prop
  | JsError.apiError m _ _ => m ≠ ""
  | JsError.other _ => True

/-- Every `ApiError` thrown by one loop iteration has a non-empty message. -/
theorem attemptStep_errMsgOk {T : Type} (o : FetchOutcome T) (e : JsError)
    (h : attemptStep o = Except.error e) : errMsgOk e := by
  cases o with
  | httpOk body => simp [attemptStep] at h
  | httpError status requestId =>
    simp [attemptStep] at h
    subst h
    exact append_ne_empty_left _ _ (by decide)
  | netError message =>
    simp [attemptStep] at h
    subst h
    trivial

/-- Every error propagated by `requestJson`'s loop has a non-empty message
when it is an `ApiError`. -/
theorem requestJsonFrom_errMsgOk {T : Type} (retry : RetryOptions)
    (outcome : Nat → FetchOutcome T) :
    ∀ fuel attempt e,
      (requestJsonFrom retry outcome attempt fuel).result = Except.error e → errMsgOk e := by
  intro fuel
  induction fuel with
  | zero =>
    intro attempt e h
    simp [requestJsonFrom] at h
    subst h
    exact (by decide : ("Request failed" : String) ≠ "")
  | succ f ih =>
    intro attempt e h
    unfold requestJsonFrom at h
    revert h
    cases hs : attemptStep (outcome attempt) with
    | ok v => intro h; simp at h
    | error e0 =>
      intro h
      by_cases hle : retry.retries ≤ attempt
      · simp [hle] at h
        subst h
        exact attemptStep_errMsgOk (outcome attempt) e0 hs
      · simp [hle] at h
        exact ih (attempt + 1) e h

/-- Same statement for a complete `requestJson` call. -/
theorem requestJson_errMsgOk {T : Type} (retry : RetryOptions)
    (outcome : Nat → FetchOutcome T) (e : JsError)
    (h : (requestJson retry outcome).result = Except.error e) : errMsgOk e :=
  requestJsonFrom_errMsgOk retry outcome (retry.retries + 1) 0 e h

/-- C5: in mock mode, `saveVirtualLink` succeeds with status exactly `VIRTUAL`
(never `PROVISIONING`, `MATERIALIZED` or `FAILED`) for every input. -/
theorem saveVirtualLink_mock_virtual (params : SaveVirtualLinkParams)
    (nowIso : String) (req : Except JsError SaveData) :
    (saveVirtualLink true nowIso req params).ok = true ∧
    (saveVirtualLink true nowIso req params).data =
      some ⟨ResourceStatus.VIRTUAL, nowIso⟩ := by
  simp [saveVirtualLink, ok]

/-- The generated mock task id is never empty. -/
theorem genTaskId_ne_empty (nowMs : Nat) (rand : String) : genTaskId nowMs rand ≠ "" := by
  unfold genTaskId
  exact append_ne_empty_left _ _ (append_ne_empty_left _ _
    (append_ne_empty_left _ _ (by decide)))

/-- C6: `triggerJitProvision` never returns `ok = true` with a missing or
empty `taskId` — for every mode, clock/random input, backend response and task
store, a successful result carries a record with a non-empty `taskId`. -/
theorem triggerJitProvision_ok_has_taskId (useMockFlag : Bool) (nMs : Nat)
    (rand nowIso : String) (req : Except JsError TaskRecord)
    (params : TriggerJitProvisionParams) (tasks : List (String × TaskRecord))
    (h : (triggerJitProvision useMockFlag nMs rand nowIso req params tasks).1.ok = true) :
    ∃ record,
      (triggerJitProvision useMockFlag nMs rand nowIso req params tasks).1.data = some record ∧
      record.taskId ≠ "" := by
  cases useMockFlag with
  | true =>
    exact ⟨⟨genTaskId nMs rand, "processing", params.tmdbId, some params.linkId,
        nowIso, none, none, none⟩,
      by simp [triggerJitProvision, ok], genTaskId_ne_empty nMs rand⟩
  | false =>
    rcases req with e | data
    · cases e with
      | apiError m s rid => simp [triggerJitProvision, fail] at h
      | other m => simp [triggerJitProvision, fail] at h
    · by_cases ht : data.taskId = ""
      · simp [triggerJitProvision, ht, fail] at h
      · exact ⟨data, by simp [triggerJitProvision, ht, ok], ht⟩

/-- Witness for C6: a concrete successful mock provision call carries a
non-empty task id. -/
theorem triggerJitProvision_ok_has_taskId_witness :
    ∃ record,
      (triggerJitProvision true 1 "ab" "t" (Except.error (JsError.other "x"))
          ⟨"603692", "link-1", none⟩ []).1.data = some record ∧
      record.taskId ≠ "" :=
  triggerJitProvision_ok_has_taskId true 1 "ab" "t" (Except.error (JsError.other "x"))
    ⟨"603692", "link-1", none⟩ [] rfl

/-- A key absent from the map makes `mapSet` append a new entry. -/
theorem mapSet_of_absent {α : Type} (m : List (String × α)) (key : String) (v : α)
    (h : mapGet m key = none) : mapSet m key v = m ++ [(key, v)] := by
  unfold mapSet
  have hany : m.any (fun p => p.1 = key) = false := by
    unfold mapGet at h
    rcases hf : m.find? (fun p => p.1 = key) with _ | p
    · rw [List.any_eq_false]
      intro p hp
      have := List.find?_eq_none.mp hf p hp
      simpa using this
    · rw [hf] at h; simp at h
  simp [hany]

/-- A key absent from both halves of an append is absent from the whole. -/
theorem mapGet_append_none {α : Type} (m1 m2 : List (String × α)) (key : String)
    (h1 : mapGet m1 key = none) (h2 : mapGet m2 key = none) :
    mapGet (m1 ++ m2) key = none := by
  unfold mapGet at *
  rw [List.find?_append]
  have hf1 : m1.find? (fun p => p.1 = key) = none := by
    rcases hf : m1.find? (fun p => p.1 = key) with _ | p
    · exact hf
    · rw [hf] at h1; simp at h1
  have hf2 : m2.find? (fun p => p.1 = key) = none := by
    rcases hf : m2.find? (fun p => p.1 = key) with _ | p
    · exact hf
    · rw [hf] at h2; simp at h2
  rw [hf1, hf2]
  rfl

/-- A singleton map misses every other key. -/
theorem mapGet_singleton_none {α : Type} (k key : String) (v : α) (h : k ≠ key) :
    mapGet [(k, v)] key = none := by
  simp [mapGet, List.find?, h]

/-- First mock provision call of the C1 counterexample: clock 1 ms, random
suffix `"ab"`, empty task store. -/
def jitCall1 : ApiResult TaskRecord × List (String × TaskRecord) :=
  triggerJitProvision true 1 "ab" "t1" (Except.error (JsError.other "x"))
    ⟨"603692", "link-1", none⟩ []

/-- Second mock provision call with the same `{tmdbId, linkId}` one clock tick
later, on the task store left by the first call. -/
def jitCall2 : ApiResult TaskRecord × List (String × TaskRecord) :=
  triggerJitProvision true 2 "ab" "t2" (Except.error (JsError.other "x"))
    ⟨"603692", "link-1", none⟩ jitCall1.2

/-- C1 counterexample: two successive `triggerJitProvision` calls with the same
`{tmdbId, linkId}` (served by the in-repo mock) return two different task ids
and leave two tasks in the task store, not one — the operation is not
idempotent. -/
theorem triggerJitProvision_not_idempotent :
    (jitCall1.1.data.map TaskRecord.taskId = some "task_1_ab") ∧
    (jitCall2.1.data.map TaskRecord.taskId = some "task_2_ab") ∧
    jitCall1.1.data.map TaskRecord.taskId ≠ jitCall2.1.data.map TaskRecord.taskId ∧
    jitCall2.2.length = 2 := by
  refine ⟨rfl, rfl, ?_, rfl⟩
  decide

/-- C1 (amended): in mock mode each `triggerJitProvision` call creates a fresh
task — whenever the two generated ids are distinct (e.g. the calls happen at
different clock ticks) and not already stored, the two calls return those two
distinct task ids and the task store grows by two entries. -/
theorem triggerJitProvision_fresh_task_per_call
    (params : TriggerJitProvisionParams) (tasks : List (String × TaskRecord))
    (n1 n2 : Nat) (r1 r2 nowIso1 nowIso2 : String)
    (req1 req2 : Except JsError TaskRecord)
    (hne : genTaskId n1 r1 ≠ genTaskId n2 r2)
    (h1 : mapGet tasks (genTaskId n1 r1) = none)
    (h2 : mapGet tasks (genTaskId n2 r2) = none) :
    ((triggerJitProvision true n1 r1 nowIso1 req1 params tasks).1.data.map TaskRecord.taskId
        = some (genTaskId n1 r1)) ∧
    ((triggerJitProvision true n2 r2 nowIso2 req2 params
        (triggerJitProvision true n1 r1 nowIso1 req1 params tasks).2).1.data.map TaskRecord.taskId
        = some (genTaskId n2 r2)) ∧
    (triggerJitProvision true n2 r2 nowIso2 req2 params
        (triggerJitProvision true n1 r1 nowIso1 req1 params tasks).2).2.length
      = tasks.length + 2 := by
  have hstore1 : (triggerJitProvision true n1 r1 nowIso1 req1 params tasks).2 =
      tasks ++ [(genTaskId n1 r1,
        ⟨genTaskId n1 r1, "processing", params.tmdbId, some params.linkId,
          nowIso1, none, none, none⟩)] := by
    simp [triggerJitProvision]
    exact mapSet_of_absent tasks (genTaskId n1 r1) _ h1
  have habs2 : mapGet (triggerJitProvision true n1 r1 nowIso1 req1 params tasks).2
      (genTaskId n2 r2) = none := by
    rw [hstore1]
    exact mapGet_append_none _ _ _ h2 (mapGet_singleton_none _ _ _ hne)
  have hstore2 : (triggerJitProvision true n2 r2 nowIso2 req2 params
      (triggerJitProvision true n1 r1 nowIso1 req1 params tasks).2).2 =
      (triggerJitProvision true n1 r1 nowIso1 req1 params tasks).2 ++
        [(genTaskId n2 r2,
          ⟨genTaskId n2 r2, "processing", params.tmdbId, some params.linkId,
            nowIso2, none, none, none⟩)] := by
    simp [triggerJitProvision]
    exact mapSet_of_absent _ (genTaskId n2 r2) _ habs2
  refine ⟨by simp [triggerJitProvision, ok], by simp [triggerJitProvision, ok], ?_⟩
  rw [hstore2, hstore1]
  simp

/-- Witness for the amended C1 at concrete inputs. -/
theorem triggerJitProvision_fresh_task_per_call_witness :
    ((triggerJitProvision true 1 "ab" "t1" (Except.error (JsError.other "x"))
        ⟨"603692", "link-1", none⟩ []).1.data.map TaskRecord.taskId
      = some (genTaskId 1 "ab")) ∧
    ((triggerJitProvision true 2 "ab" "t2" (Except.error (JsError.other "x"))
        ⟨"603692", "link-1", none⟩
        (triggerJitProvision true 1 "ab" "t1" (Except.error (JsError.other "x"))
          ⟨"603692", "link-1", none⟩ []).2).1.data.map TaskRecord.taskId
      = some (genTaskId 2 "ab")) ∧
    (triggerJitProvision true 2 "ab" "t2" (Except.error (JsError.other "x"))
        ⟨"603692", "link-1", none⟩
        (triggerJitProvision true 1 "ab" "t1" (Except.error (JsError.other "x"))
          ⟨"603692", "link-1", none⟩ []).2).2.length = 0 + 2 :=
  triggerJitProvision_fresh_task_per_call ⟨"603692", "link-1", none⟩ [] 1 2 "ab" "ab"
    "t1" "t2" (Except.error (JsError.other "x")) (Except.error (JsError.other "x"))
    (by decide) rfl rfl

/-- C8: the wrappers are total functions into `ApiResult` (they never throw —
every exception of the underlying request is caught), and whenever one of them
reports `ok = false` the error carries a non-empty message; moreover
`getTaskStatus` in mock mode answers a 404 `TASK_NOT_FOUND` failure for a task
id absent from the task store.  The underlying request outcome is an arbitrary
schedule of fetch outcomes run through `requestJson`. -/
theorem provisioning_wrappers_never_reject (retry : RetryOptions)
    (oS : Nat → FetchOutcome SaveData) (oT oG : Nat → FetchOutcome TaskRecord)
    (useMockFlag : Bool) (nowIso : String) (nMs : Nat) (rand : String)
    (paramsS : SaveVirtualLinkParams) (paramsT : TriggerJitProvisionParams)
    (tasks : List (String × TaskRecord)) (taskId : String) :
    ((saveVirtualLink useMockFlag nowIso (requestJson retry oS).result paramsS).ok = false →
      ∃ err,
        (saveVirtualLink useMockFlag nowIso (requestJson retry oS).result paramsS).error
          = some err ∧ err.message ≠ "") ∧
    ((triggerJitProvision useMockFlag nMs rand nowIso (requestJson retry oT).result
        paramsT tasks).1.ok = false →
      ∃ err,
        (triggerJitProvision useMockFlag nMs rand nowIso (requestJson retry oT).result
          paramsT tasks).1.error = some err ∧ err.message ≠ "") ∧
    ((getTaskStatus useMockFlag (requestJson retry oG).result tasks taskId).ok = false →
      ∃ err,
        (getTaskStatus useMockFlag (requestJson retry oG).result tasks taskId).error
          = some err ∧ err.message ≠ "") ∧
    (mapGet tasks taskId = none →
      getTaskStatus true (requestJson retry oG).result tasks taskId =
        fail "Task not found" (some 404) (some "TASK_NOT_FOUND") none) := by
  refine ⟨?_, ?_, ?_, ?_⟩
  · cases useMockFlag with
    | true => intro h; simp [saveVirtualLink, ok] at h
    | false =>
      intro h
      rcases hr : (requestJson retry oS).result with e | data
      · cases e with
        | apiError m s rid =>
          refine ⟨⟨m, none, some s, rid⟩, by simp [saveVirtualLink, hr, fail], ?_⟩
          exact requestJson_errMsgOk retry oS _ hr
        | other m =>
          exact ⟨⟨"Failed to save virtual link", none, none, none⟩,
            by simp [saveVirtualLink, hr, fail], by decide⟩
      · rw [hr] at h; simp [saveVirtualLink, ok] at h
  · cases useMockFlag with
    | true => intro h; simp [triggerJitProvision, ok] at h
    | false =>
      intro h
      rcases hr : (requestJson retry oT).result with e | data
      · cases e with
        | apiError m s rid =>
          refine ⟨⟨m, none, some s, rid⟩, by simp [triggerJitProvision, hr, fail], ?_⟩
          exact requestJson_errMsgOk retry oT _ hr
        | other m =>
          exact ⟨⟨"Failed to trigger JIT provisioning", none, none, none⟩,
            by simp [triggerJitProvision, hr, fail], by decide⟩
      · by_cases ht : data.taskId = ""
        · exact ⟨⟨"Missing taskId in response", none, some 500, none⟩,
            by simp [triggerJitProvision, hr, ht, fail], by decide⟩
        · rw [hr] at h; simp [triggerJitProvision, ht, ok] at h
  · cases useMockFlag with
    | true =>
      intro h
      rcases hm : mapGet tasks taskId with _ | record
      · exact ⟨⟨"Task not found", some "TASK_NOT_FOUND", some 404, none⟩,
          by simp [getTaskStatus, hm, fail], by decide⟩
      · simp [getTaskStatus, hm, ok] at h
    | false =>
      intro h
      rcases hr : (requestJson retry oG).result with e | data
      · cases e with
        | apiError m s rid =>
          refine ⟨⟨m, none, some s, rid⟩, by simp [getTaskStatus, hr, fail], ?_⟩
          exact requestJson_errMsgOk retry oG _ hr
        | other m =>
          exact ⟨⟨"Failed to fetch task status", none, none, none⟩,
            by simp [getTaskStatus, hr, fail], by decide⟩
      · rw [hr] at h; simp [getTaskStatus, ok] at h
  · intro hm
    simp [getTaskStatus, hm]

/-- Witness for C8: with one failing fetch outcome and an empty task store,
the backend-mode save reports a failure with a non-empty message, and the
mock-mode task lookup for an unknown id is the 404 `TASK_NOT_FOUND` failure. -/
theorem provisioning_wrappers_never_reject_witness :
    (∃ err,
      (saveVirtualLink false "t" (requestJson ⟨0, 500⟩
          (fun _ => FetchOutcome.netError "down")).result
          ⟨"603692", "link-1", "Inception", "https://example.com/s/1"⟩).error
        = some err ∧ err.message ≠ "") ∧
    getTaskStatus true (requestJson ⟨0, 500⟩
        (fun _ => FetchOutcome.netError "down")).result [] "missing" =
      fail "Task not found" (some 404) (some "TASK_NOT_FOUND") none := by
  have h := provisioning_wrappers_never_reject ⟨0, 500⟩
    (fun _ => FetchOutcome.netError "down")
    (fun _ => FetchOutcome.netError "down") (fun _ => FetchOutcome.netError "down")
    false "t" 1 "ab" ⟨"603692", "link-1", "Inception", "https://example.com/s/1"⟩
    ⟨"603692", "link-1", none⟩ [] "missing"
  have h2 := provisioning_wrappers_never_reject ⟨0, 500⟩
    (fun _ => FetchOutcome.netError "down")
    (fun _ => FetchOutcome.netError "down") (fun _ => FetchOutcome.netError "down")
    true "t" 1 "ab" ⟨"603692", "link-1", "Inception", "https://example.com/s/1"⟩
    ⟨"603692", "link-1", none⟩ [] "missing"
  exact ⟨h.1 rfl, h2.2.2.2 rfl⟩

/-- The `QuarkLink`/`LinkItem` interface. -/
structure LinkItem where
  id : String
  title : String
  shareUrl : String
  quality : Option String
  size : Option String
  matchScore : Option Nat
  deriving DecidableEq, Repr

/-- The `BackendResourceItem` interface (fields used by the flattening). -/
structure BackendResourceItem where
  id : Option String
  messageId : Option String
  title : Option String
  content : Option String
  pubDate : Option String
  image : Option String
  cloudLinks : Option (List String)
  cloudType : Option String
  tags : Option (List String)
  channel : Option String
  channelId : Option String
  deriving DecidableEq, Repr

/-- The `BackendChannelInfo` interface. -/
structure BackendChannelInfo where
  id : String
  name : String
  channelLogo : Option String
  channelId : Option String
  deriving DecidableEq, Repr

/-- The `BackendResourceGroup` interface. -/
structure BackendResourceGroup where
  id : String
  list : List BackendResourceItem
  channelInfo : BackendChannelInfo
  deriving DecidableEq, Repr

/-- The `BackendResourceSearchResponse` interface. -/
structure BackendResourceSearchResponse where
  data : List BackendResourceGroup
  deriving DecidableEq, Repr

/-- `item.title || item.content || "Untitled"`. -/
def linkTitle (item : BackendResourceItem) : String :=
  jsOrS item.title (jsOrS item.content "Untitled")

/-- `item.id || item.messageId || groupId-itemIndex`. -/
def linkBaseId (groupId : String) (itemIndex : Nat) (item : BackendResourceItem) : String :=
  jsOrS item.id (jsOrS item.messageId (groupId ++ "-" ++ toString itemIndex))

/-- The imperative flattening loop of `searchQuarkLinks`: the three nested
`forEach` calls pushing one `LinkItem` per cloud link onto `links`, modelled as
nested left folds over the enumerated lists. -/
def collectLinks (response : BackendResourceSearchResponse) : List LinkItem :=
  response.data.foldl (fun links group =>
    group.list.enum.foldl (fun links itemE =>
      ((itemE.2.cloudLinks.getD []).enum).foldl (fun links linkE =>
        links ++ [⟨linkBaseId group.id itemE.1 itemE.2 ++ "-" ++ toString linkE.1,
          linkTitle itemE.2, linkE.2, none, none, none⟩]) links) links) []

/-- The flattening described by the claim, declaratively: one `LinkItem` per
element of each item's `cloudLinks`, in group, item, link order, with the
stated title and id. -/
def flattenLinksSpec (response : BackendResourceSearchResponse) : List LinkItem :=
  response.data.flatMap (fun group =>
    group.list.enum.flatMap (fun itemE =>
      ((itemE.2.cloudLinks.getD []).enum).map (fun linkE =>
        ⟨linkBaseId group.id itemE.1 itemE.2 ++ "-" ++ toString linkE.1,
          linkTitle itemE.2, linkE.2, none, none, none⟩)))

/-- `searchQuarkLinks`.  In mock mode it returns the local mock links; in
backend mode the keyword is `params.query ?? params.tmdbId ?? ""`, an empty
keyword short-circuits to the empty list, and otherwise the search request is
issued and its response flattened.  The boolean records whether a network
request was issued. -/
def searchQuarkLinks (useMock : Bool) (mockLinks : List LinkItem)
    (params : QuarkSearchParams) (response : BackendResourceSearchResponse) :
    Bool × List LinkItem :=
  if useMock then (false, mockLinks)
  else
    let keyword := nullish params.query (nullish params.tmdbId "")
    if keyword = "" then (false, [])
    else (true, collectLinks response)

/-- Mapping a function of the element over an enumerated list forgets the
indices. -/
theorem enum_map_snd_comp {α β : Type} (l : List α) (f : α → β) :
    l.enum.map (fun p => f p.2) = l.map f := by
  rw [show (fun p : Nat × α => f p.2) = (f ∘ Prod.snd) from rfl, ← List.map_map,
    List.enum_map_snd]

/-- A left fold whose step appends a computed chunk equals the flat map. -/
theorem foldl_append_chunks {α β : Type} (step : List β → α → List β)
    (F : α → List β) (hstep : ∀ acc x, step acc x = acc ++ F x) :
    ∀ (l : List α) (init : List β), l.foldl step init = init ++ l.flatMap F := by
  intro l
  induction l with
  | nil => intro init; simp
  | cons a t ih =>
    intro init
    rw [List.foldl_cons, hstep, ih]
    simp

/-- Flat-mapping singletons is mapping. -/
theorem flatMap_singleton_eq_map {α β : Type} (l : List α) (g : α → β) :
    l.flatMap (fun x => [g x]) = l.map g := by
  induction l with
  | nil => rfl
  | cons a t ih => simp [ih]

/-- The imperative loop computes exactly the declarative flattening. -/
theorem collectLinks_eq_flatten (response : BackendResourceSearchResponse) :
    collectLinks response = flattenLinksSpec response := by
  have hstep2 : ∀ (acc : List LinkItem) (group : BackendResourceGroup),
      group.list.enum.foldl (fun links itemE =>
        ((itemE.2.cloudLinks.getD []).enum).foldl (fun links linkE =>
          links ++ [⟨linkBaseId group.id itemE.1 itemE.2 ++ "-" ++ toString linkE.1,
            linkTitle itemE.2, linkE.2, none, none, none⟩]) links) acc =
      acc ++ group.list.enum.flatMap (fun itemE =>
        ((itemE.2.cloudLinks.getD []).enum).map (fun linkE =>
          (⟨linkBaseId group.id itemE.1 itemE.2 ++ "-" ++ toString linkE.1,
            linkTitle itemE.2, linkE.2, none, none, none⟩ : LinkItem))) := by
    intro acc group
    apply foldl_append_chunks
    intro acc2 itemE
    rw [foldl_append_chunks _ (fun linkE =>
        [(⟨linkBaseId group.id itemE.1 itemE.2 ++ "-" ++ toString linkE.1,
          linkTitle itemE.2, linkE.2, none, none, none⟩ : LinkItem)])
      (fun _ _ => rfl) ((itemE.2.cloudLinks.getD []).enum) acc2]
    rw [flatMap_singleton_eq_map]
  unfold collectLinks flattenLinksSpec
  rw [foldl_append_chunks _ (fun group =>
      group.list.enum.flatMap (fun itemE =>
        ((itemE.2.cloudLinks.getD []).enum).map (fun linkE =>
          (⟨linkBaseId group.id itemE.1 itemE.2 ++ "-" ++ toString linkE.1,
            linkTitle itemE.2, linkE.2, none, none, none⟩ : LinkItem))))
    hstep2 response.data []]
  simp

/-- C10: `searchQuarkLinks` flattens a backend search response
deterministically — the pushed list equals the declarative flattening (one
`LinkItem` per cloud link, in group, item, link order, with the stated title
and id), its length is the total number of cloud links, and when both `query`
and `tmdbId` are absent the function returns the empty list without issuing a
request. -/
theorem searchQuarkLinks_flattens (mockLinks : List LinkItem)
    (params : QuarkSearchParams) (response : BackendResourceSearchResponse) :
    (params.query = none → params.tmdbId = none →
      searchQuarkLinks false mockLinks params response = (false, [])) ∧
    (searchQuarkLinks false mockLinks params response).2 ∈
      ([[], collectLinks response] : List (List LinkItem)) ∧
    collectLinks response = flattenLinksSpec response ∧
    (collectLinks response).length =
      (response.data.map (fun group =>
        (group.list.map (fun item => (item.cloudLinks.getD []).length)).sum)).sum := by
  refine ⟨?_, ?_, collectLinks_eq_flatten response, ?_⟩
  · intro hq ht
    simp [searchQuarkLinks, hq, ht, nullish]
  · by_cases hk : nullish params.query (nullish params.tmdbId "") = "" <;>
      simp [searchQuarkLinks, hk]
  · rw [collectLinks_eq_flatten response]
    unfold flattenLinksSpec
    rw [List.length_flatMap]
    congr 1
    apply List.map_congr_left
    intro group _
    simp only [Function.comp_apply, List.length_flatMap, List.map_map]
    rw [← enum_map_snd_comp group.list (fun item => (item.cloudLinks.getD []).length)]
    congr 1
    apply List.map_congr_left
    intro itemE _
    simp [Function.comp]

/-- A small concrete backend search response: one group with an item carrying
two cloud links and an untitled, id-less item carrying one. -/
def sampleResponse : BackendResourceSearchResponse :=
  ⟨[⟨"g1",
    [⟨some "a", none, some "T", none, none, none, some ["u1", "u2"], none, none, none, none⟩,
     ⟨none, none, none, none, none, none, some ["u3"], none, none, none, none⟩],
    ⟨"c1", "Channel", none, none⟩⟩]⟩

/-- Witness for C10 at a concrete response and absent search params. -/
theorem searchQuarkLinks_flattens_witness :
    searchQuarkLinks false [] ⟨none, none⟩ sampleResponse = (false, []) ∧
    (collectLinks sampleResponse).length = 3 ∧
    collectLinks sampleResponse = flattenLinksSpec sampleResponse := by
  obtain ⟨h1, h2, h3, h4⟩ := searchQuarkLinks_flattens [] ⟨none, none⟩ sampleResponse
  refine ⟨h1 rfl rfl, ?_, h3⟩
  rw [h4]
  rfl

/-- The polling interval passed to `setInterval` in the detail page effect. -/
def pollIntervalMs : Nat := 4000

/-- A notice shown by `setNoticeWithTimeout`: `type` is `"success"`, `"error"`
or `"info"`. -/
structure Notice where
  type : String
  message : String
  deriving DecidableEq, Repr

/-- The state accumulated by one run of `pollTasks`: the `updates` written to
`linkStatus`, the `nextTasks` that will become the active-task set, and the
notices emitted (in order; the page displays the last one). -/
structure PollOutcome where
  updates : List (String × ResourceStatus)
  nextTasks : List (String × String)
  notices : List Notice
  deriving DecidableEq, Repr

/-- Processing of one `{taskId, result}` entry inside `pollTasks`'s
`results.forEach`: a missing or empty `linkId` drops the task; a failed status
fetch marks the link `FAILED`, drops the task and emits an error notice; a
`"completed"` task is dropped with a success notice; a `"failed"` task is
dropped with an error notice carrying the record's `errorMessage` (or the
generic fallback); any other status only updates the link status and keeps the
task active. -/
def pollStepOne (active : List (String × String)) (acc : PollOutcome)
    (taskId : String) (result : ApiResult TaskRecord) : PollOutcome :=
  match mapGet active taskId with
  | none => ⟨acc.updates, deleteKey acc.nextTasks taskId, acc.notices⟩
  | some linkId =>
    if linkId = "" then ⟨acc.updates, deleteKey acc.nextTasks taskId, acc.notices⟩
    else if result.ok = false then
      ⟨mapSet acc.updates linkId ResourceStatus.FAILED, deleteKey acc.nextTasks taskId,
        acc.notices ++ [⟨"error",
          jsOrS (result.error.map ApiErrorShape.message) "Task status unavailable."⟩]⟩
    else
      match result.data with
      | none =>
        ⟨mapSet acc.updates linkId ResourceStatus.FAILED, deleteKey acc.nextTasks taskId,
          acc.notices ++ [⟨"error",
            jsOrS (result.error.map ApiErrorShape.message) "Task status unavailable."⟩]⟩
      | some record =>
        if record.status = "completed" then
          ⟨mapSet acc.updates linkId (mapTaskStatus record.status),
            deleteKey acc.nextTasks taskId,
            acc.notices ++ [⟨"success", "Provisioning completed."⟩]⟩
        else if record.status = "failed" then
          ⟨mapSet acc.updates linkId (mapTaskStatus record.status),
            deleteKey acc.nextTasks taskId,
            acc.notices ++ [⟨"error", jsOrS record.errorMessage "Provisioning failed."⟩]⟩
        else
          ⟨mapSet acc.updates linkId (mapTaskStatus record.status),
            acc.nextTasks, acc.notices⟩

/-- One run of `pollTasks` over the current active-task set: every active task
id is queried (`results` pairs each task id with its `getTaskStatus` result, in
order) and the entries are folded through `pollStepOne` starting from no
updates, the full active set as `nextTasks`, and no notices. -/
def pollStep (active : List (String × String)) (fetch : String → ApiResult TaskRecord) :
    PollOutcome :=
  (active.map (fun p => (p.1, fetch p.1))).foldl
    (fun acc r => pollStepOne active acc r.1 r.2) ⟨[], active, []⟩

/-- Repeated polling: the active-task set after `n` poll runs, the run at step
`n` using the fetch results `fetch n`. -/
def pollIter (fetch : Nat → String → ApiResult TaskRecord)
    (active : List (String × String)) : Nat → List (String × String)
  | 0 => active
  | n + 1 => (pollStep (pollIter fetch active n) (fetch n)).nextTasks

/-- A status fetch result that terminates polling for its task: a failed
fetch, a missing payload, or a record in a terminal (`"completed"` or
`"failed"`) state. -/
def terminalResult (r : ApiResult TaskRecord) : Prop :=
  r.ok = false ∨ r.data = none ∨
    ∃ record, r.data = some record ∧
      (record.status = "completed" ∨ record.status = "failed")

/-- The `nextTasks` of `pollStepOne` is either the accumulator's `nextTasks`
unchanged or that list with the processed task deleted. -/
theorem pollStepOne_nextTasks_cases (active : List (String × String)) (acc : PollOutcome)
    (taskId : String) (result : ApiResult TaskRecord) :
    (pollStepOne active acc taskId result).nextTasks = acc.nextTasks ∨
    (pollStepOne active acc taskId result).nextTasks = deleteKey acc.nextTasks taskId := by
  unfold pollStepOne
  cases mapGet active taskId with
  | none => right; rfl
  | some linkId =>
    dsimp only
    split_ifs with h0 hok
    · right; rfl
    · right; rfl
    · cases result.data with
      | none => right; rfl
      | some record =>
        dsimp only
        split_ifs with hc hf
        · right; rfl
        · right; rfl
        · left; rfl

/-- `pollStepOne` never adds a task to `nextTasks`. -/
theorem pollStepOne_nextTasks_sub (active : List (String × String)) (acc : PollOutcome)
    (taskId : String) (result : ApiResult TaskRecord) (p : String × String)
    (hp : p ∈ (pollStepOne active acc taskId result).nextTasks) : p ∈ acc.nextTasks := by
  rcases pollStepOne_nextTasks_cases active acc taskId result with h | h
  · rw [h] at hp; exact hp
  · rw [h] at hp
    unfold deleteKey at hp
    exact List.mem_of_mem_filter hp

/-- Under a terminal fetch result, `pollStepOne` always drops its own task. -/
theorem pollStepOne_terminal_deletes (active : List (String × String)) (acc : PollOutcome)
    (taskId : String) (result : ApiResult TaskRecord) (hterm : terminalResult result) :
    (pollStepOne active acc taskId result).nextTasks = deleteKey acc.nextTasks taskId := by
  unfold pollStepOne
  cases mapGet active taskId with
  | none => rfl
  | some linkId =>
    dsimp only
    split_ifs with h0 hok
    · rfl
    · rfl
    · cases hd : result.data with
      | none => rfl
      | some record =>
        dsimp only
        rcases hterm with h | h | ⟨record2, hr2, hst⟩
        · exact absurd h hok
        · rw [h] at hd; exact absurd hd (by simp)
        · rw [hd] at hr2
          injection hr2 with hr2
          subst hr2
          rcases hst with hc | hf
          · rw [if_pos hc]
          · have hc : ¬ record.status = "completed" := by rw [hf]; decide
            rw [if_neg hc, if_pos hf]

/-- A key deleted from an association list is no longer a key of it. -/
theorem not_mem_keys_deleteKey {α : Type} (m : List (String × α)) (key : String) :
    ∀ v, (key, v) ∉ deleteKey m key := by
  intro v hv
  unfold deleteKey at hv
  have := List.of_mem_filter hv
  simp at this

/-- The fold inside `pollStep` never adds entries to `nextTasks`. -/
theorem pollFold_nextTasks_sub (active : List (String × String))
    (l : List (String × ApiResult TaskRecord)) :
    ∀ (acc : PollOutcome) (p : String × String),
      p ∈ (l.foldl (fun acc r => pollStepOne active acc r.1 r.2) acc).nextTasks →
      p ∈ acc.nextTasks := by
  induction l with
  | nil => intro acc p hp; exact hp
  | cons hd tl ih =>
    intro acc p hp
    rw [List.foldl_cons] at hp
    exact pollStepOne_nextTasks_sub active acc hd.1 hd.2 p (ih _ p hp)

/-- If some entry of the fold's input carries a terminal result for `taskId`,
the task is absent from the folded `nextTasks`. -/
theorem pollFold_terminal_removed (active : List (String × String))
    (l : List (String × ApiResult TaskRecord)) (taskId : String) :
    ∀ (acc : PollOutcome),
      (∃ r, (taskId, r) ∈ l ∧ terminalResult r) →
      ∀ v, (taskId, v) ∉
        (l.foldl (fun acc r => pollStepOne active acc r.1 r.2) acc).nextTasks := by
  induction l with
  | nil =>
    intro acc ⟨r, hr, _⟩ v
    exact absurd hr (List.not_mem_nil _)
  | cons hd tl ih =>
    intro acc ⟨r, hr, hterm⟩ v hv
    rw [List.foldl_cons] at hv
    rcases List.mem_cons.mp hr with heq | htl
    · by_cases hintl : ∃ r2, (taskId, r2) ∈ tl ∧ terminalResult r2
      · exact ih _ hintl v hv
      · have hv2 := pollFold_nextTasks_sub active tl _ _ hv
        rw [show hd = (taskId, r) from heq.symm] at hv2
        rw [pollStepOne_terminal_deletes active acc taskId r hterm] at hv2
        exact not_mem_keys_deleteKey acc.nextTasks taskId v hv2
    · exact ih _ ⟨r, htl, hterm⟩ v hv

/-- A task whose status fetch is terminal in a poll run is gone from the
resulting active-task set. -/
theorem pollStep_terminal_removed (active : List (String × String))
    (fetch : String → ApiResult TaskRecord) (taskId : String)
    (hmem : ∃ v, (taskId, v) ∈ active) (hterm : terminalResult (fetch taskId)) :
    ∀ v, (taskId, v) ∉ (pollStep active fetch).nextTasks := by
  obtain ⟨v0, hv0⟩ := hmem
  apply pollFold_terminal_removed active _ taskId
  refine ⟨fetch taskId, ?_, hterm⟩
  exact List.mem_map.mpr ⟨(taskId, v0), hv0, rfl⟩

/-- `pollStep` only shrinks the active-task set. -/
theorem pollStep_nextTasks_sub (active : List (String × String))
    (fetch : String → ApiResult TaskRecord) (p : String × String)
    (hp : p ∈ (pollStep active fetch).nextTasks) : p ∈ active :=
  pollFold_nextTasks_sub active _ _ p hp

/-- C3: the detail page polls active tasks at a fixed 4000 ms interval (inside
the 3–5 s band), and once a poll run observes a terminal result for a task —
status `"completed"` or `"failed"`, or a failed status fetch — that task is
removed from the active-task set and, the set only ever shrinking, it is
absent from every later poll run, so no further status requests (which a run
issues exactly for the members of its active set) are made for it. -/
theorem pollTasks_stops_on_terminal (fetch : Nat → String → ApiResult TaskRecord)
    (active : List (String × String)) (taskId : String) (n : Nat)
    (hmem : ∃ v, (taskId, v) ∈ pollIter fetch active n)
    (hterm : terminalResult (fetch n taskId)) :
    pollIntervalMs = 4000 ∧ 3000 ≤ pollIntervalMs ∧ pollIntervalMs ≤ 5000 ∧
    ∀ m, n < m → ∀ v, (taskId, v) ∉ pollIter fetch active m := by
  refine ⟨rfl, by decide, by decide, ?_⟩
  have hbase : ∀ v, (taskId, v) ∉ pollIter fetch active (n + 1) :=
    pollStep_terminal_removed (pollIter fetch active n) (fetch n) taskId hmem hterm
  intro m hm
  induction m with
  | zero => omega
  | succ k ih =>
    by_cases hk : n < k
    · intro v hv
      exact ih hk v (pollStep_nextTasks_sub (pollIter fetch active k) (fetch k) (taskId, v) hv)
    · have : k = n := by omega
      subst this
      exact hbase

/-- Witness for C3: a single `"completed"` task polled at step 0 is absent
from the active set of step 2. -/
theorem pollTasks_stops_on_terminal_witness :
    ("t1", "l1") ∉
      pollIter (fun _ _ => ok ⟨"t1", "completed", "603692", some "l1", "now",
          none, none, none⟩ (some ⟨"mock", none⟩))
        [("t1", "l1")] 2 := by
  have h := pollTasks_stops_on_terminal
    (fun _ _ => ok ⟨"t1", "completed", "603692", some "l1", "now", none, none, none⟩
      (some ⟨"mock", none⟩))
    [("t1", "l1")] "t1" 0
    ⟨"l1", by simp [pollIter]⟩
    (Or.inr (Or.inr ⟨⟨"t1", "completed", "603692", some "l1", "now", none, none, none⟩,
      rfl, Or.inl rfl⟩))
  exact h.2.2.2 2 (by omega) "l1"

/-- C7: in a poll step over one active task with a non-empty link id and a
successful status fetch, a task reporting `"failed"` produces exactly one
user-visible error notice carrying the record's `errorMessage` (or the generic
fallback when it is absent or empty) and marks the link `FAILED` (and drops the
task), while a task reporting `"pending"` or `"processing"` produces no notice
at all and leaves the link `PROVISIONING` with the task still active. -/
theorem pollStep_failure_surfacing (taskId linkId : String) (record : TaskRecord)
    (meta : Option ApiMeta) (hlink : linkId ≠ "") :
    (record.status = "failed" →
      (pollStep [(taskId, linkId)] (fun _ => ok record meta)).notices =
        [⟨"error", jsOrS record.errorMessage "Provisioning failed."⟩] ∧
      mapGet (pollStep [(taskId, linkId)] (fun _ => ok record meta)).updates linkId =
        some ResourceStatus.FAILED ∧
      (pollStep [(taskId, linkId)] (fun _ => ok record meta)).nextTasks = []) ∧
    ((record.status = "pending" ∨ record.status = "processing") →
      (pollStep [(taskId, linkId)] (fun _ => ok record meta)).notices = [] ∧
      mapGet (pollStep [(taskId, linkId)] (fun _ => ok record meta)).updates linkId =
        some ResourceStatus.PROVISIONING ∧
      (pollStep [(taskId, linkId)] (fun _ => ok record meta)).nextTasks =
        [(taskId, linkId)]) := by
  constructor
  · intro hf
    refine ⟨?_, ?_, ?_⟩ <;>
      simp [pollStep, pollStepOne, mapGet, mapSet, deleteKey, List.find?, ok,
        hlink, hf, mapTaskStatus]
  · intro hp
    rcases hp with hp | hp <;>
      refine ⟨?_, ?_, ?_⟩ <;>
        simp [pollStep, pollStepOne, mapGet, mapSet, deleteKey, List.find?, ok,
          hlink, hp, mapTaskStatus]

/-- Witness for C7 at a concrete failed record carrying an error message. -/
theorem pollStep_failure_surfacing_witness :
    (pollStep [("t1", "l1")] (fun _ =>
        ok ⟨"t1", "failed", "603692", some "l1", "now", none, none,
          some "Share expired"⟩ none)).notices = [⟨"error", "Share expired"⟩] ∧
    mapGet (pollStep [("t1", "l1")] (fun _ =>
        ok ⟨"t1", "failed", "603692", some "l1", "now", none, none,
          some "Share expired"⟩ none)).updates "l1" = some ResourceStatus.FAILED ∧
    (pollStep [("t1", "l1")] (fun _ =>
        ok ⟨"t1", "failed", "603692", some "l1", "now", none, none,
          some "Share expired"⟩ none)).nextTasks = [] := by
  have h := (pollStep_failure_surfacing "t1" "l1"
    ⟨"t1", "failed", "603692", some "l1", "now", none, none, some "Share expired"⟩
    none (by decide)).1 rfl
  obtain ⟨h1, h2, h3⟩ := h
  refine ⟨?_, h2, h3⟩
  rw [h1]
  rfl

end TestWall
